import Mathlib

/-!
Shallow embedding of the request-queue and Google-PaLM proxy module of the
oai-proxy-hop repository (source file `src/src/proxy/palm.ts`, which contains
both the PaLM router/response code and the request-queue module).

Conventions of the embedding:
* JS numbers that hold timestamps and token counts are modelled as `Int` / `Nat`;
  JS floating-point arithmetic on averages is modelled exactly over `Rat`
  (all inputs are integers, so the only rounding happens in `Math.round`,
  modelled by `jsMathRound`).
* The module-level mutable `queue` and `waitTimes` arrays become explicit
  function arguments and results.
* Exceptions become `Except String`; `undefined` fields become `Option`.
* JS object identity for tickets is modelled by a numeric `tid` field;
  `Array.prototype.indexOf`/`splice` removal of a ticket is `List.erase`
  (first occurrence).
-/

namespace OaiProxy

/-- Model families (`ModelFamily` in `shared/models`), the closed enumeration
from the spec: turbo, gpt4, gpt4-32k, claude, bison, aws-claude. -/
inductive ModelFamily
  | turbo
  | gpt4
  | gpt4_32k
  | claude
  | bison
  | aws_claude
deriving DecidableEq, Repr

/-- The upstream service a request is routed to (`req.service`). -/
inductive Service
  | openai
  | anthropic
  | google_palm
  | aws
deriving DecidableEq, Repr

/-- API dialects (`req.inboundApi` / `req.outboundApi`):
"openai" | "openai-text" | "anthropic" | "google-palm". -/
inductive Api
  | openai
  | openai_text
  | anthropic
  | google_palm
deriving DecidableEq, Repr

/-- A JS value that can sit in `req.body.stream` (boolean, string or number). -/
inductive JsStreamValue
  | bool (b : Bool)
  | str (s : String)
  | num (n : Int)
deriving DecidableEq, Repr

/-- JS truthiness of an optional `stream` field (`if (req.body.stream)` in
`rewritePalmRequest`): absent and `false`, `""`, `0` are falsy, everything
else is truthy. -/
def jsTruthy : Option JsStreamValue → Bool
  | none => false
  | some (JsStreamValue.bool b) => b
  | some (JsStreamValue.str s) => !(s == "")
  | some (JsStreamValue.num n) => !(n == 0)

/-- A request ticket (the express `Request` object together with the fields the
proxy attaches to it).  `tid` stands in for JS object identity.  `userToken`
merges `req.user?.token` (a ticket with a user object always carries its
token). -/
structure Ticket where
  tid : Nat
  userToken : Option String
  risuToken : Option String
  ip : String
  retryCount : Nat
  startTime : Int
  service : Service
  outboundApi : Api
  inboundApi : Api
  model : Option String
  promptTokens : Option Nat
  outputTokens : Option Nat
  debug : Option String
  stream : Option JsStreamValue
  isStreaming : Bool
  badSseParser : Bool
  queueOutTime : Option Int
deriving DecidableEq, Repr

/-- Modelled from the spec: `SHARED_IP_ADDRESSES` lives in `rate-limit.ts`,
which is not among the provided sources.  Per the spec (glossary,
"Shared-identity"), it is a fixed set of source IPs known to front many users;
the embedding passes the set of addresses explicitly as `sharedIps`. -/
def isFromSharedIp (sharedIps : List String) (req : Ticket) : Bool :=
  sharedIps.contains req.ip

/-- `getIdentifier` (queue module): user token, else risu token, else the
constant "shared-ip" for shared addresses, else the IP. -/
def getIdentifier (sharedIps : List String) (req : Ticket) : String :=
  match req.userToken with
  | some token => token
  | none =>
    match req.risuToken with
    | some token => token
    | none =>
      if isFromSharedIp sharedIps req then "shared-ip" else req.ip

/-- Maximum number of queue slots for Agnai.chat requests (queue module). -/
def AGNAI_CONCURRENCY_LIMIT : Nat := 5

/-- Maximum number of queue slots for individual users (queue module). -/
def USER_CONCURRENCY_LIMIT : Nat := 1

/-- The `enqueuedRequestCount` computed at the top of `enqueue`:
`queue.filter(sharesIdentifierWith(req)).length`. -/
def enqueuedCountFor (sharedIps : List String) (req : Ticket) (queue : List Ticket) : Nat :=
  (queue.filter (fun q => getIdentifier sharedIps q == getIdentifier sharedIps req)).length

/-- The `maxConcurrentQueuedRequests` of `enqueue`:
`isGuest && isSharedIp ? AGNAI_CONCURRENCY_LIMIT : USER_CONCURRENCY_LIMIT`,
where `isGuest` is `req.user?.token === undefined`. -/
def identityCap (sharedIps : List String) (req : Ticket) : Nat :=
  if req.userToken.isNone && isFromSharedIp sharedIps req then
    AGNAI_CONCURRENCY_LIMIT
  else
    USER_CONCURRENCY_LIMIT

/-- `enqueue` (queue module, admission-control part): rejects when the
identity already occupies `maxConcurrentQueuedRequests` slots, except that a
shared-IP request with `retryCount > 0` falls through; otherwise pushes the
ticket (with `queueOutTime = 0`) at the end of the shared list.  The heartbeat
registration for streaming tickets is embedded separately
(`initStreamingWrites` / `heartbeatTick`), and the abort hook as `removeFromQueue`. -/
def enqueue (sharedIps : List String) (req : Ticket) (queue : List Ticket) :
    Except String (List Ticket) :=
  if enqueuedCountFor sharedIps req queue ≥ identityCap sharedIps req then
    if isFromSharedIp sharedIps req then
      if req.retryCount = 0 then
        Except.error "Too many agnai.chat requests are already queued"
      else
        Except.ok (queue ++ [{ req with queueOutTime := some 0 }])
    else
      Except.error "Your IP or token already has a request in the queue"
  else
    Except.ok (queue ++ [{ req with queueOutTime := some 0 }])

/-- The streaming test in `enqueue`:
`stream === "true" || stream === true || req.isStreaming`. -/
def isStreamRequested (req : Ticket) : Bool :=
  (req.stream == some (JsStreamValue.str "true"))
    || (req.stream == some (JsStreamValue.bool true))
    || req.isStreaming

/-- The abort handler registered by `enqueue` (`removeFromQueue`): removes the
first occurrence of the ticket from the shared list. -/
def removeFromQueue (req : Ticket) (queue : List Ticket) : List Ticket :=
  queue.erase req

/-- Modelled from the spec: the model-family lookups
(`getOpenAIModelFamily` and friends) live in `shared/models.ts`, which is not
among the provided sources.  Spec 4.2: "switch on outbound dialect and map
model prefixes; unknown models fall back to turbo". -/
def getOpenAIModelFamily (model : String) : ModelFamily :=
  if List.isPrefixOf "gpt-4-32k".toList model.toList then ModelFamily.gpt4_32k
  else if List.isPrefixOf "gpt-4".toList model.toList then ModelFamily.gpt4
  else ModelFamily.turbo

/-- Modelled from the spec: all Anthropic models map to the claude family
(`shared/models.ts` is not among the provided sources). -/
def getClaudeModelFamily (_model : String) : ModelFamily :=
  ModelFamily.claude

/-- Modelled from the spec: all PaLM models map to the bison family
(`shared/models.ts` is not among the provided sources). -/
def getGooglePalmModelFamily (_model : String) : ModelFamily :=
  ModelFamily.bison

/-- `getPartitionForRequest` (queue module): AWS requests are forced to
aws-claude, otherwise the partition is derived from the outbound dialect and
the model name (defaulting to "gpt-3.5-turbo" when absent). -/
def getPartitionForRequest (req : Ticket) : ModelFamily :=
  let model := req.model.getD "gpt-3.5-turbo"
  if req.service == Service.aws then ModelFamily.aws_claude
  else
    match req.outboundApi with
    | Api.anthropic => getClaudeModelFamily model
    | Api.openai => getOpenAIModelFamily model
    | Api.openai_text => getOpenAIModelFamily model
    | Api.google_palm => getGooglePalmModelFamily model

/-- Stable insertion of `a` into `l` before the first element `b` with
`le a b` (helper for `jsStableSort`). -/
def jsOrderedInsert (le : α → α → Bool) (a : α) : List α → List α
  | [] => [a]
  | b :: l => if le a b then a :: b :: l else b :: jsOrderedInsert le a l

/-- Stable sort with respect to a boolean total preorder.
`Array.prototype.sort` is stable (ECMA-262); the comparator used in
`getQueueForPartition` induces the total preorder
`le a b = !(isShared a && !isShared b)` (a may stay before b unless a is
shared and b is not), and for a stable sort the result is determined by that
preorder, so a stable insertion sort is a faithful model. -/
def jsStableSort (le : α → α → Bool) : List α → List α
  | [] => []
  | a :: l => jsOrderedInsert le a (jsStableSort le l)

/-- `getQueueForPartition` (queue module): filter the shared list by
partition, then sort shared-IP (deprioritized) tickets to the end, keeping
the relative order of tickets of equal priority. -/
def getQueueForPartition (sharedIps : List String) (queue : List Ticket)
    (partition : ModelFamily) : List Ticket :=
  jsStableSort
    (fun a b => !(isFromSharedIp sharedIps a && !(isFromSharedIp sharedIps b)))
    (queue.filter (fun req => getPartitionForRequest req == partition))

/-- `dequeue` (queue module): on the partition's sorted list, `reduce` picks
the ticket whose `startTime` is smallest (keeping `prev` only when
`prev.startTime < curr.startTime`); that ticket is removed from the shared
list (first occurrence, as `indexOf`/`splice` do) and gets its `queueOutTime`
stamped with the current time. -/
def dequeue (sharedIps : List String) (partition : ModelFamily) (now : Int)
    (queue : List Ticket) : Option (Ticket × List Ticket) :=
  match getQueueForPartition sharedIps queue partition with
  | [] => none
  | h :: t =>
    let req := t.foldl
      (fun prev curr => if prev.startTime < curr.startTime then prev else curr) h
    some ({ req with queueOutTime := some now }, queue.erase req)

/-- Queue states reachable from the empty queue by the module's own
operations: successful `enqueue`, `dequeue`, and the abort-handler removal. -/
inductive QueueReachable (sharedIps : List String) : List Ticket → Prop
  | empty : QueueReachable sharedIps []
  | enqueueStep (t : Ticket) (q q2 : List Ticket) :
      QueueReachable sharedIps q → enqueue sharedIps t q = Except.ok q2 →
      QueueReachable sharedIps q2
  | dequeueStep (p : ModelFamily) (now : Int) (t : Ticket) (q q2 : List Ticket) :
      QueueReachable sharedIps q → dequeue sharedIps p now q = some (t, q2) →
      QueueReachable sharedIps q2
  | abortStep (t : Ticket) (q : List Ticket) :
      QueueReachable sharedIps q → QueueReachable sharedIps (removeFromQueue t q)

/-- A wait sample (`waitTimes` entry of the queue module):
partition, queue-in time, queue-out time, deprioritized flag.
The source field `end` is a Lean keyword, hence `«end»`. -/
structure WaitSample where
  partition : ModelFamily
  start : Int
  «end» : Int
  isDeprioritized : Bool
deriving DecidableEq, Repr

/-- `trackWaitTime` (queue module): appends a sample for a successful request
(`end` falls back to the current time when `queueOutTime` is unset). -/
def trackWaitTime (sharedIps : List String) (req : Ticket) (now : Int)
    (waitTimes : List WaitSample) : List WaitSample :=
  waitTimes ++ [{ partition := getPartitionForRequest req,
                  start := req.startTime,
                  «end» := req.queueOutTime.getD now,
                  isDeprioritized := isFromSharedIp sharedIps req }]

/-- `getEstimatedWaitTime` (queue module): average of `end - start` over the
samples of the partition whose `end` is within the last five minutes and which
are not deprioritized; 0 when there are none.  JS float arithmetic on integer
inputs is modelled exactly over `Rat`. -/
def getEstimatedWaitTime (partition : ModelFamily) (now : Int)
    (waitTimes : List WaitSample) : Rat :=
  let recentWaits := waitTimes.filter (fun wait =>
    (wait.partition == partition)
      && (decide (now - wait.«end» < 300 * 1000))
      && (!wait.isDeprioritized))
  if recentWaits.length = 0 then 0
  else
    (recentWaits.foldl
        (fun sum wait => sum + (wait.«end» : Rat) - (wait.start : Rat)) 0)
      / (recentWaits.length : Rat)

/-- Formalisation of the wording of claim C7, written from the spec text, to
be compared with the source embedding `getEstimatedWaitTime`: the arithmetic
mean of `end - start` over exactly the recorded samples whose partition
matches, whose `end` lies within the last 5 minutes, and whose deprioritized
flag is false; 0 when no such sample exists. -/
def specAverageWait (partition : ModelFamily) (now : Int)
    (waitTimes : List WaitSample) : Rat :=
  let samples := waitTimes.filter (fun s =>
    decide (s.partition = partition)
      && decide (now - s.«end» < 5 * 60 * 1000)
      && decide (s.isDeprioritized = false))
  if samples = [] then 0
  else ((samples.map (fun s => ((s.«end» - s.start : Int) : Rat))).sum)
    / (samples.length : Rat)

/-- JS `Array.prototype.findIndex`: index of the first element satisfying the
predicate, `-1` when there is none. -/
def jsFindIndex (p : α → Bool) : List α → Int
  | [] => -1
  | a :: l =>
    if p a then 0
    else
      match jsFindIndex p l with
      | -1 => -1
      | i => i + 1

/-- The wait-sample pruning step of `cleanQueue` (queue module):
`index = waitTimes.findIndex(w => now - w.end > 300 * 1000)` followed by
`waitTimes.splice(0, index + 1)`, i.e. the list keeps everything after the
first sample older than five minutes (and is unchanged when there is none,
since the splice count is then 0). -/
def pruneWaitTimes (waitTimes : List WaitSample) (now : Int) : List WaitSample :=
  let index := jsFindIndex (fun waitTime => decide (now - waitTime.«end» > 300 * 1000)) waitTimes
  waitTimes.drop (index + 1).toNat

/-- JS `Math.round`: round half toward positive infinity,
`Math.round(x) = floor(x + 0.5)`. -/
def jsMathRound (x : Rat) : Int :=
  (x + 1 / 2).floor

/-- Modelled from the spec: `buildFakeSse` lives in `shared/streaming.ts`,
which is not among the provided sources.  Per the spec (4.3, heartbeat
contract), it yields a synthetic SSE data event, not a comment line, whose
payload is a well-formed fake chunk in the client's dialect. -/
def buildFakeSse (eventType : String) (message : String) (req : Ticket) : String :=
  "data: fake chunk of type " ++ eventType ++ " in dialect "
    ++ (match req.inboundApi with
        | Api.openai => "openai"
        | Api.openai_text => "openai-text"
        | Api.anthropic => "anthropic"
        | Api.google_palm => "google-palm")
    ++ " with payload: " ++ message ++ "\n\n"

/-- The debug message built by the diagnostic branch of the heartbeat timer in
`enqueue`: queue length, elapsed seconds, and rounded average wait seconds. -/
def heartbeatDebugMsg (req : Ticket) (queue : List Ticket)
    (waitTimes : List WaitSample) (now : Int) : String :=
  let partition := getPartitionForRequest req
  let avgWait := jsMathRound (getEstimatedWaitTime partition now waitTimes / 1000)
  let currentDuration := jsMathRound (((now - req.startTime : Int) : Rat) / 1000)
  "queue length: " ++ toString queue.length
    ++ "; elapsed time: " ++ toString currentDuration
    ++ "s; avg wait: " ++ toString avgWait ++ "s"

/-- The heartbeat timer body registered by `enqueue` for streaming tickets:
in production mode an SSE comment line is written unless the request carries
`badSseParser`; otherwise (diagnostic mode) a synthetic fake SSE event with
queue statistics is written.  The result lists the strings written to the
client response on one tick. -/
def heartbeatTick (isProduction : Bool) (req : Ticket) (queue : List Ticket)
    (waitTimes : List WaitSample) (now : Int) : List String :=
  if isProduction then
    if !req.badSseParser then [": queue heartbeat\n\n"] else []
  else
    [buildFakeSse "heartbeat" (heartbeatDebugMsg req queue waitTimes now) req]

/-- The body writes performed by `initStreaming` after the SSE headers are
initialised: the joining-queue comment, unless the client passed
`badSseParser`. -/
def initStreamingWrites (req : Ticket) (queueLength : Nat) : List String :=
  if req.badSseParser then []
  else [": joining queue at position " ++ toString queueLength ++ "\n\n"]

/-- The JSON error envelope written by `createQueueMiddleware` when `enqueue`
throws. -/
structure QueueErrorResponse where
  status : Nat
  type : String
  message : String
  proxy_note : String
deriving DecidableEq, Repr

/-- Outcome of the queue middleware: either the ticket was enqueued (with the
new queue state) or the client got an error response. -/
inductive MiddlewareOutcome
  | enqueued (newQueue : List Ticket)
  | rejected (resp : QueueErrorResponse)
deriving DecidableEq, Repr

/-- The rejection envelope of `createQueueMiddleware`:
`res.status(429).json(\x7b type: "proxy_error", message, ... \x7d)`. -/
def queueRejectionResponse (message : String) : QueueErrorResponse :=
  { status := 429
    type := "proxy_error"
    message := message
    proxy_note := "Only one request can be queued at a time. If you don\x27t have another request queued, your IP or user token might be in use by another request." }

/-- `createQueueMiddleware` (queue module): attach the resume continuation and
try to enqueue; an `enqueue` error is surfaced to the client as HTTP 429 with
type "proxy_error" and the error's message. -/
def createQueueMiddleware (sharedIps : List String) (req : Ticket)
    (queue : List Ticket) : MiddlewareOutcome :=
  match enqueue sharedIps req queue with
  | Except.ok newQueue => MiddlewareOutcome.enqueued newQueue
  | Except.error msg => MiddlewareOutcome.rejected (queueRejectionResponse msg)

/-- One entry of the `candidates` array of a PaLM generateText response. -/
structure PalmCandidate where
  output : String
deriving DecidableEq, Repr

/-- A parsed PaLM upstream response body (the only part the handler reads is
the `candidates` array). -/
structure PalmBody where
  candidates : List PalmCandidate
deriving DecidableEq, Repr

/-- The `message` object of an OpenAI chat-completion choice. -/
structure OpenAIMessage where
  role : String
  content : String
deriving DecidableEq, Repr

/-- One element of the `choices` array produced by `transformPalmResponse`. -/
structure OpenAIChoice where
  message : OpenAIMessage
  finish_reason : Option String
  index : Nat
deriving DecidableEq, Repr

/-- The `usage` object produced by `transformPalmResponse`; the per-field
counts are passed through as-is (possibly absent), the total is computed with
missing counts treated as 0. -/
structure OpenAIUsage where
  prompt_tokens : Option Nat
  completion_tokens : Option Nat
  total_tokens : Nat
deriving DecidableEq, Repr

/-- The OpenAI-shaped chat completion object built by
`transformPalmResponse`. -/
structure OpenAIChatCompletion where
  id : String
  object : String
  created : Int
  model : Option String
  usage : OpenAIUsage
  choices : List OpenAIChoice
deriving DecidableEq, Repr

/-- `transformPalmResponse` (palm.ts): builds a fresh OpenAI-shaped object
from `candidates[0].output`, a synthesized id `"plm-" + v4()` (the random UUID
is an explicit argument here), `Date.now()` (the `now` argument), the model
from the request body, and the tokenizer estimates on the ticket.  Reading
`candidates[0].output` of an empty candidates array throws in JS, modelled by
`none`. -/
def transformPalmResponse (palmRespBody : PalmBody) (req : Ticket)
    (uuid : String) (now : Int) : Option OpenAIChatCompletion :=
  match palmRespBody.candidates.head? with
  | none => none
  | some c =>
    let totalTokens := req.promptTokens.getD 0 + req.outputTokens.getD 0
    some
      { id := "plm-" ++ uuid
        object := "chat.completion"
        created := now
        model := req.model
        usage :=
          { prompt_tokens := req.promptTokens
            completion_tokens := req.outputTokens
            total_tokens := totalTokens }
        choices :=
          [{ message := { role := "assistant", content := c.output }
             finish_reason := none
             index := 0 }] }

/-- The payload of the JSON body sent to the client by the PaLM response
handler: either the PaLM-shaped upstream body passed through, or the
OpenAI-shaped object built by `transformPalmResponse`. -/
inductive ClientPayload
  | palm (body : PalmBody)
  | openai (resp : OpenAIChatCompletion)
deriving DecidableEq, Repr

/-- The JSON body sent to the client, with the optional augmentation fields
the handler can attach (`proxy_note`, `proxy_tokenizer_debug_info`).
A `none` field is absent from the JSON. -/
structure ClientBody where
  payload : ClientPayload
  proxy_note : Option String
  proxy_tokenizer_debug_info : Option String
deriving DecidableEq, Repr

/-- `palmResponseHandler` (palm.ts): sets `body.proxy_note` on the upstream
body object when prompt logging is enabled; then, when the inbound dialect is
openai, REPLACES the body with the fresh object returned by
`transformPalmResponse` (which carries no `proxy_note`); then attaches the
tokenizer debug info when present; finally sends status 200 with the body.
`none` models the JS exception on a candidates-less body. -/
def palmResponseHandler (promptLogging : Bool) (host : String) (req : Ticket)
    (body : PalmBody) (uuid : String) (now : Int) : Option (Nat × ClientBody) :=
  let note : Option String :=
    if promptLogging then
      some ("Prompts are logged on this proxy instance. See " ++ host
        ++ " for more information.")
    else none
  let afterTransform : Option ClientBody :=
    if req.inboundApi == Api.openai then
      match transformPalmResponse body req uuid now with
      | none => none
      | some r =>
        some { payload := ClientPayload.openai r, proxy_note := none,
               proxy_tokenizer_debug_info := none }
    else
      some { payload := ClientPayload.palm body, proxy_note := note,
             proxy_tokenizer_debug_info := none }
  match afterTransform with
  | none => none
  | some b => some (200, { b with proxy_tokenizer_debug_info := req.debug })

/-- JS `String.prototype.replace` with a STRING pattern (not a regex), on
character lists: replace the first occurrence of `pat` as a contiguous
substring; when `pat` does not occur, the string is unchanged. -/
def jsReplaceFirstList (pat repl : List Char) : List Char → List Char
  | [] => if pat.isEmpty then repl else []
  | c :: rest =>
    if pat.isPrefixOf (c :: rest) then repl ++ (c :: rest).drop pat.length
    else c :: jsReplaceFirstList pat repl rest

/-- JS `String.prototype.replace` with a string pattern, on strings. -/
def jsStringReplace (s pat repl : String) : String :=
  String.mk (jsReplaceFirstList pat.toList repl.toList s.toList)

/-- Outcome of `rewritePalmRequest` (palm.ts), as seen from the control flow
of the handler itself:
* `raised`: an exception escaped the handler (the streaming check throws
  before the try/catch that guards the rewriter pipeline);
* `destroyed`: a rewriter-pipeline stage threw, the catch logged it and
  called `proxyReq.destroy(error)`;
* `forwarded`: the handler returned normally and the proxied request proceeds
  with the (possibly rewritten) path. -/
inductive RewriteOutcome
  | raised (msg : String)
  | destroyed (msg : String)
  | forwarded (path : String)
deriving DecidableEq, Repr

/-- The replacement target for the PaLM path rewrite:
a template string interpolating `req.body.model` (JS prints `undefined` for a
missing model). -/
def palmPathTarget (req : Ticket) : String :=
  "/v1beta2/models/" ++ req.model.getD "undefined" ++ ":generateText"

/-- `rewritePalmRequest` (palm.ts): throws on a truthy `stream` field (before
the try/catch), otherwise rewrites `proxyReq.path` with
`path.replace("^/v1/chat/completions", "/v1beta2/models/MODEL:generateText")`
(the first argument is the LITERAL string including the caret, not a regex)
and runs the rewriter pipeline inside a try/catch whose catch destroys the
proxied request.  The pipeline stages live outside the provided sources; their
outcome is the explicit `pipelineError` argument. -/
def rewritePalmRequest (req : Ticket) (path : String)
    (pipelineError : Option String) : RewriteOutcome :=
  if jsTruthy req.stream then
    RewriteOutcome.raised "Google PaLM API doesn\x27t support streaming requests"
  else
    let newPath := jsStringReplace path "^/v1/chat/completions" (palmPathTarget req)
    match pipelineError with
    | some e => RewriteOutcome.destroyed e
    | none => RewriteOutcome.forwarded newPath

/-- A baseline ticket used to build the concrete tickets of the examples:
a guest request from an ordinary IP for gpt-3.5-turbo routed to OpenAI. -/
def baseTicket : Ticket :=
  { tid := 0
    userToken := none
    risuToken := none
    ip := "0.0.0.0"
    retryCount := 0
    startTime := 0
    service := Service.openai
    outboundApi := Api.openai
    inboundApi := Api.openai
    model := some "gpt-3.5-turbo"
    promptTokens := none
    outputTokens := none
    debug := none
    stream := none
    isStreaming := false
    badSseParser := false
    queueOutTime := some 0 }

/-- C1 example: a deprioritized (shared-IP) guest ticket that arrived first. -/
def depTicket : Ticket :=
  { baseTicket with tid := 11, ip := "5.5.5.5", startTime := 1 }

/-- C1 example: a regular-IP ticket that arrived second. -/
def regTicket : Ticket :=
  { baseTicket with tid := 12, ip := "1.2.3.4", startTime := 2 }

/-- C2 example: a guest ticket from an ordinary IP, already queued. -/
def queuedTicket : Ticket :=
  { baseTicket with tid := 21, ip := "9.9.9.9" }

/-- C2 example: a retry ticket (retryCount 1) with the same ordinary-IP
identity as `queuedTicket`. -/
def retryTicket : Ticket :=
  { baseTicket with tid := 22, ip := "9.9.9.9", retryCount := 1 }

/-- C2 witness example: a guest ticket from an ordinary IP. -/
def capWitnessTicket : Ticket :=
  { baseTicket with tid := 23, ip := "7.7.7.7" }

/-- C3 example: a guest ticket from a shared IP address. -/
def sharedDupTicket : Ticket :=
  { baseTicket with tid := 31, ip := "5.5.5.5" }

/-- C3 witness example: a guest ticket from an ordinary IP. -/
def normalDupTicket : Ticket :=
  { baseTicket with tid := 32, ip := "8.8.8.8" }

/-- C5/C10 example: a non-streaming PaLM chat-completion ticket for
text-bison-001. -/
def palmTicket : Ticket :=
  { baseTicket with
    tid := 51
    service := Service.google_palm
    outboundApi := Api.google_palm
    model := some "text-bison-001" }

/-- C10 example: the same PaLM ticket with `stream: true` in its body. -/
def palmStreamTicket : Ticket :=
  { palmTicket with tid := 52, stream := some (JsStreamValue.bool true) }

/-- C10 witness example: a PaLM ticket whose body has `stream: "yes"`, a
truthy string. -/
def palmStreamStrTicket : Ticket :=
  { palmTicket with tid := 53, stream := some (JsStreamValue.str "yes") }

/-- C6 example: an openai-dialect ticket, as produced by the PaLM router
(its preprocessor always sets `inApi: "openai"`). -/
def palmOpenAITicket : Ticket :=
  { palmTicket with tid := 61, inboundApi := Api.openai }

/-- C6 example: a hypothetical ticket whose inbound dialect is not openai,
exhibiting the branch in which the proxy note survives. -/
def palmNativeTicket : Ticket :=
  { palmTicket with tid := 62, inboundApi := Api.google_palm }

/-- C6/C4 example: a PaLM upstream body with one candidate "pong". -/
def pongBody : PalmBody := { candidates := [{ output := "pong" }] }

/-- C8 example: a stale wait sample (end = 1000). -/
def staleSampleA : WaitSample :=
  { partition := ModelFamily.turbo, start := 0, «end» := 1000,
    isDeprioritized := false }

/-- C8 example: a second stale wait sample (end = 2000). -/
def staleSampleB : WaitSample :=
  { partition := ModelFamily.turbo, start := 500, «end» := 2000,
    isDeprioritized := false }

/-- C8 witness example: a fresh sample recorded just before `now`. -/
def freshSample : WaitSample :=
  { partition := ModelFamily.turbo, start := 999000, «end» := 999500,
    isDeprioritized := false }

/-- C8 witness example: a stale sample sitting after the fresh one. -/
def staleSampleC : WaitSample :=
  { partition := ModelFamily.gpt4, start := 0, «end» := 100,
    isDeprioritized := false }

/-- C8 witness example: a stale sample sitting last in the list. -/
def staleSampleD : WaitSample :=
  { partition := ModelFamily.claude, start := 0, «end» := 200,
    isDeprioritized := true }

/-- C9 example: a streaming ticket whose query string carries
`badSseParser=true`. -/
def badParserTicket : Ticket :=
  { baseTicket with tid := 91, isStreaming := true, badSseParser := true }

/-- Helper: the running sum of the estimator's `reduce` equals the sum of the
per-sample durations. -/
theorem foldl_wait_sum (l : List WaitSample) (init : Rat) :
    l.foldl (fun sum wait => sum + (wait.«end» : Rat) - (wait.start : Rat)) init
      = init + (l.map (fun s => ((s.«end» - s.start : Int) : Rat))).sum := by
  induction l generalizing init with
  | nil => simp
  | cons a l ih =>
    simp only [List.foldl_cons, List.map_cons, List.sum_cons, ih]
    push_cast
    ring

/-- Helper: `findIndex` yields -1 exactly when no element matches. -/
theorem jsFindIndex_of_forall_false (p : α → Bool) (l : List α)
    (h : ∀ x ∈ l, p x = false) : jsFindIndex p l = -1 := by
  induction l with
  | nil => rfl
  | cons a l ih =>
    have ha : p a = false := h a (by simp)
    have ih' : jsFindIndex p l = -1 := ih (fun x hx => h x (by simp [hx]))
    simp [jsFindIndex, ha, ih']

/-- Helper: `findIndex` on a list whose first match sits after the block
`pre` returns the length of `pre`. -/
theorem jsFindIndex_append_first (p : α → Bool) (pre : List α) (w : α)
    (post : List α) (hpre : ∀ x ∈ pre, p x = false) (hw : p w = true) :
    jsFindIndex p (pre ++ w :: post) = (pre.length : Int) := by
  induction pre with
  | nil => simp [jsFindIndex, hw]
  | cons a pre ih =>
    have ha : p a = false := hpre a (by simp)
    have ih' := ih (fun x hx => hpre x (by simp [hx]))
    have hne : (pre.length : Int) ≠ -1 := by omega
    simp [jsFindIndex, ha, ih', hne]

/-- Helper: the middleware answers 429/proxy_error exactly when `enqueue`
throws. -/
theorem createQueueMiddleware_rejected_iff (sharedIps : List String)
    (req : Ticket) (queue : List Ticket) :
    (∃ resp, createQueueMiddleware sharedIps req queue = MiddlewareOutcome.rejected resp
        ∧ resp.status = 429 ∧ resp.type = "proxy_error")
      ↔ (∃ msg, enqueue sharedIps req queue = Except.error msg) := by
  cases h : enqueue sharedIps req queue with
  | ok q2 => simp [createQueueMiddleware, h]
  | error msg => simp [createQueueMiddleware, h, queueRejectionResponse]

/-- Helper: `enqueue` throws exactly when the identity count reaches the cap
and the shared-IP retry exemption does not apply. -/
theorem enqueue_error_iff (sharedIps : List String) (req : Ticket)
    (queue : List Ticket) :
    (∃ msg, enqueue sharedIps req queue = Except.error msg)
      ↔ (enqueuedCountFor sharedIps req queue ≥ identityCap sharedIps req
          ∧ (isFromSharedIp sharedIps req = true → req.retryCount = 0)) := by
  unfold enqueue
  split_ifs with h1 h2 h3 <;> simp_all

/-- C1: the claim says `dequeue(partition)` returns a deprioritized
(shared-IP) ticket only when the partition holds no non-deprioritized ticket.
The code sorts deprioritized tickets to the end but then `reduce` picks the
globally earliest `startTime`, defeating the sort: with a deprioritized
ticket of startTime 1 and a regular ticket of startTime 2 in partition turbo,
`dequeue` returns the deprioritized one. -/
theorem c1_dequeue_ignores_deprioritization :
    (dequeue ["5.5.5.5"] ModelFamily.turbo 100 [depTicket, regTicket]).map
        (fun r => r.1.tid) = some depTicket.tid
    ∧ isFromSharedIp ["5.5.5.5"] depTicket = true
    ∧ isFromSharedIp ["5.5.5.5"] regTicket = false
    ∧ getPartitionForRequest depTicket = ModelFamily.turbo
    ∧ getPartitionForRequest regTicket = ModelFamily.turbo
    ∧ depTicket.startTime < regTicket.startTime := by
  decide

/-- C2 (counterexample): the claim exempts every retry ticket
(retry-count > 0) from the admission cap, but the code's retry exemption sits
inside the shared-IP branch only: a retry ticket from an ordinary IP whose
identity already occupies its single slot is rejected, not appended. -/
theorem c2_counterexample_normal_retry_rejected :
    createQueueMiddleware [] retryTicket [queuedTicket]
      = MiddlewareOutcome.rejected
          (queueRejectionResponse "Your IP or token already has a request in the queue")
    ∧ retryTicket.retryCount = 1
    ∧ getIdentifier [] retryTicket = getIdentifier [] queuedTicket := by
  exact ⟨rfl, rfl, rfl⟩

/-- C2 (amended): the queue middleware rejects a ticket — HTTP 429 with type
"proxy_error" — if and only if the number of queued tickets sharing its
identity is at least the identity's cap (5 for token-less tickets from a
shared-identity source, 1 otherwise) and, when the ticket comes from a shared
IP, its retry-count is 0; only shared-IP retries are exempt from the cap. -/
theorem c2_rejection_iff_cap_with_shared_retry_exemption
    (sharedIps : List String) (req : Ticket) (queue : List Ticket) :
    (∃ resp, createQueueMiddleware sharedIps req queue = MiddlewareOutcome.rejected resp
        ∧ resp.status = 429 ∧ resp.type = "proxy_error")
      ↔ (enqueuedCountFor sharedIps req queue ≥ identityCap sharedIps req
          ∧ (isFromSharedIp sharedIps req = true → req.retryCount = 0)) :=
  (createQueueMiddleware_rejected_iff sharedIps req queue).trans
    (enqueue_error_iff sharedIps req queue)

/-- C2 (witness): a concrete rejection obtained through the amended claim: a
second guest ticket from the ordinary IP 7.7.7.7 is answered with 429 and
type "proxy_error". -/
theorem c2_rejection_witness :
    ∃ resp, createQueueMiddleware [] capWitnessTicket [capWitnessTicket]
        = MiddlewareOutcome.rejected resp
      ∧ resp.status = 429 ∧ resp.type = "proxy_error" :=
  (c2_rejection_iff_cap_with_shared_retry_exemption [] capWitnessTicket
    [capWitnessTicket]).mpr (by decide)

/-- C3 (counterexample): the claim says a ticket appears in every reachable
queue at most once and that enqueueing an already-queued ticket never yields
a second occurrence.  But `enqueue` only counts identities: re-enqueueing a
queued shared-IP guest ticket (cap 5) succeeds, and a queue holding the same
ticket twice is reachable from the empty queue by two `enqueue` steps. -/
theorem c3_counterexample_shared_duplicate_reachable :
    QueueReachable ["5.5.5.5"] [sharedDupTicket, sharedDupTicket]
    ∧ List.count sharedDupTicket [sharedDupTicket, sharedDupTicket] = 2 := by
  refine ⟨?_, rfl⟩
  exact QueueReachable.enqueueStep sharedDupTicket [sharedDupTicket]
    [sharedDupTicket, sharedDupTicket]
    (QueueReachable.enqueueStep sharedDupTicket [] [sharedDupTicket]
      QueueReachable.empty rfl)
    rfl

/-- C3 (amended): calling `enqueue` on a ticket that is already in the queue
raises (leaving the queue unchanged) whenever the ticket does not come from a
shared IP; the at-most-once guarantee is not enforced for shared-IP
tickets. -/
theorem c3_duplicate_normal_identity_rejected (sharedIps : List String)
    (t : Ticket) (q : List Ticket) (hmem : t ∈ q)
    (hns : isFromSharedIp sharedIps t = false) :
    enqueue sharedIps t q
      = Except.error "Your IP or token already has a request in the queue" := by
  have hcap : identityCap sharedIps t = 1 := by
    unfold identityCap
    rw [hns]
    simp [USER_CONCURRENCY_LIMIT]
  have hmemf : t ∈ q.filter
      (fun x => getIdentifier sharedIps x == getIdentifier sharedIps t) :=
    List.mem_filter.mpr ⟨hmem, by simp⟩
  have hcount : 1 ≤ enqueuedCountFor sharedIps t q := by
    unfold enqueuedCountFor
    exact List.length_pos.mpr (List.ne_nil_of_mem hmemf)
  unfold enqueue
  rw [hcap, hns]
  simp [ge_iff_le, hcount]

/-- C3 (witness): the amended claim at a concrete input: a second `enqueue`
of the queued ordinary-IP ticket 8.8.8.8 raises. -/
theorem c3_duplicate_witness :
    enqueue [] normalDupTicket [normalDupTicket]
      = Except.error "Your IP or token already has a request in the queue" :=
  c3_duplicate_normal_identity_rejected [] normalDupTicket [normalDupTicket]
    (by simp) rfl

/-- C4: for every PaLM body with at least one candidate and every openai
inbound ticket, `transformPalmResponse` yields object "chat.completion", id
"plm-" followed by the UUID, first choice message
(role assistant, content candidates[0].output) with null finish_reason, and
usage passing through the ticket's token estimates with missing counts
treated as 0 in the total. -/
theorem c4_transformPalmResponse_shape (c : PalmCandidate)
    (rest : List PalmCandidate) (req : Ticket) (uuid : String) (now : Int) :
    ∃ resp, transformPalmResponse ⟨c :: rest⟩ req uuid now = some resp
      ∧ resp.object = "chat.completion"
      ∧ resp.id = "plm-" ++ uuid
      ∧ resp.choices.head?
          = some { message := { role := "assistant", content := c.output },
                   finish_reason := none, index := 0 }
      ∧ resp.usage.prompt_tokens = req.promptTokens
      ∧ resp.usage.completion_tokens = req.outputTokens
      ∧ resp.usage.total_tokens = req.promptTokens.getD 0 + req.outputTokens.getD 0 := by
  exact ⟨_, rfl, rfl, rfl, rfl, rfl, rfl, rfl⟩

/-- C5: the claim (and the spec's stated intent) is that the upstream path of
a PaLM chat-completion request becomes `/v1beta2/models/MODEL:generateText`.
The code calls `String.replace` with the LITERAL pattern
"^/v1/chat/completions", which never occurs in the canonical client path, so
the path is forwarded unchanged. -/
theorem c5_palm_path_not_rewritten :
    rewritePalmRequest palmTicket "/v1/chat/completions" none
      = RewriteOutcome.forwarded "/v1/chat/completions"
    ∧ palmPathTarget palmTicket = "/v1beta2/models/text-bison-001:generateText"
    ∧ "/v1/chat/completions" ≠ palmPathTarget palmTicket := by
  refine ⟨?_, rfl, ?_⟩ <;> decide

/-- C6: the claim says that with prompt logging enabled every client body,
including those transformed to the OpenAI shape, carries a `proxy_note`.
The handler sets the note on the upstream body and then REPLACES the body
with the fresh object built by `transformPalmResponse`, so an openai-dialect
client (the only dialect the PaLM router produces) receives no `proxy_note`,
while a non-transformed body would keep it. -/
theorem c6_proxy_note_dropped_on_transform :
    (palmResponseHandler true "proxy.example.com" palmOpenAITicket pongBody
        "uuid-1" 0).map (fun r => r.2.proxy_note) = some none
    ∧ (palmResponseHandler true "proxy.example.com" palmNativeTicket pongBody
        "uuid-1" 0).map (fun r => r.2.proxy_note)
      = some (some "Prompts are logged on this proxy instance. See proxy.example.com for more information.")
    ∧ palmOpenAITicket.inboundApi = Api.openai := by
  exact ⟨rfl, rfl, rfl⟩

/-- C7: `getEstimatedWaitTime(partition)` equals the arithmetic mean of
`end - start` over exactly the recorded samples matching the partition whose
`end` lies within the last 5 minutes and whose deprioritized flag is false,
and 0 when no such sample exists (the spec-side definition
`specAverageWait`). -/
theorem c7_estimate_matches_spec_mean (partition : ModelFamily) (now : Int)
    (waitTimes : List WaitSample) :
    getEstimatedWaitTime partition now waitTimes
      = specAverageWait partition now waitTimes := by
  unfold getEstimatedWaitTime specAverageWait
  have hfilter :
      waitTimes.filter (fun wait =>
          (wait.partition == partition)
            && (decide (now - wait.«end» < 300 * 1000))
            && (!wait.isDeprioritized))
        = waitTimes.filter (fun s =>
            decide (s.partition = partition)
              && decide (now - s.«end» < 5 * 60 * 1000)
              && decide (s.isDeprioritized = false)) := by
    apply List.filter_congr
    intro s _
    have hbeq : (s.partition == partition) = decide (s.partition = partition) := rfl
    have hdep : (!s.isDeprioritized) = decide (s.isDeprioritized = false) := by
      cases s.isDeprioritized <;> rfl
    have htime : decide (now - s.«end» < 300 * 1000)
        = decide (now - s.«end» < 5 * 60 * 1000) := by norm_num
    rw [hbeq, hdep, htime]
  rw [hfilter]
  by_cases h : waitTimes.filter (fun s =>
      decide (s.partition = partition)
        && decide (now - s.«end» < 5 * 60 * 1000)
        && decide (s.isDeprioritized = false)) = []
  · have hlen : (waitTimes.filter (fun s =>
        decide (s.partition = partition)
          && decide (now - s.«end» < 5 * 60 * 1000)
          && decide (s.isDeprioritized = false))).length = 0 := by
      rw [h]
      rfl
    rw [if_pos hlen, if_pos h]
  · have hlen : ¬((waitTimes.filter (fun s =>
        decide (s.partition = partition)
          && decide (now - s.«end» < 5 * 60 * 1000)
          && decide (s.isDeprioritized = false))).length = 0) := by
      simpa [List.length_eq_zero] using h
    rw [if_neg hlen, if_neg h, foldl_wait_sum, zero_add]

/-- C8 (counterexample): the claim says every sample older than five minutes
is pruned by each cleanup run.  The code removes only the prefix up to and
including the FIRST stale sample: with two stale samples, the second one
survives the run. -/
theorem c8_counterexample_stale_survives :
    pruneWaitTimes [staleSampleA, staleSampleB] 1000000 = [staleSampleB]
    ∧ 1000000 - staleSampleA.«end» > 300 * 1000
    ∧ 1000000 - staleSampleB.«end» > 300 * 1000 := by
  refine ⟨rfl, ?_, ?_⟩ <;> decide

/-- C8 (amended): a cleanup run leaves the wait-sample list unchanged when no
sample is older than five minutes, and otherwise removes exactly the prefix
up to and including the first such stale sample — stale samples after that
point survive the run. -/
theorem c8_prune_removes_through_first_stale (waitTimes : List WaitSample)
    (now : Int) :
    ((∀ w ∈ waitTimes, ¬(now - w.«end» > 300 * 1000)) →
        pruneWaitTimes waitTimes now = waitTimes)
    ∧ (∀ pre w post, waitTimes = pre ++ w :: post →
        (∀ x ∈ pre, ¬(now - x.«end» > 300 * 1000)) →
        now - w.«end» > 300 * 1000 →
        pruneWaitTimes waitTimes now = post) := by
  constructor
  · intro h
    unfold pruneWaitTimes
    rw [jsFindIndex_of_forall_false _ _
      (fun x hx => by simpa using h x hx)]
    rfl
  · intro pre w post hsplit hpre hw
    subst hsplit
    unfold pruneWaitTimes
    rw [jsFindIndex_append_first _ pre w post
      (fun x hx => by simpa using hpre x hx) (by simpa using hw)]
    show List.drop ((pre.length : Int) + 1).toNat (pre ++ w :: post) = post
    have hn : ((pre.length : Int) + 1).toNat = pre.length + 1 := by omega
    rw [hn]
    have hsplit2 : pre ++ w :: post = (pre ++ [w]) ++ post := by simp
    have hlen2 : pre.length + 1 = (pre ++ [w]).length := by simp
    rw [hsplit2, hlen2, List.drop_left]

/-- C8 (witness): the amended claim at a concrete input: the run removes the
fresh leading sample together with the first stale one, and the trailing
stale sample survives. -/
theorem c8_prune_witness :
    pruneWaitTimes [freshSample, staleSampleC, staleSampleD] 1000000
      = [staleSampleD] :=
  (c8_prune_removes_through_first_stale
      [freshSample, staleSampleC, staleSampleD] 1000000).2
    [freshSample] staleSampleC [staleSampleD] rfl (by decide) (by decide)

/-- C9 (counterexample): the claim says `badSseParser=true` suppresses the
diagnostic fake events as well.  The diagnostic (non-production) heartbeat
branch writes the synthetic fake SSE event unconditionally: a ticket carrying
the flag still receives a data event on every tick. -/
theorem c9_counterexample_fake_event_despite_flag :
    heartbeatTick false badParserTicket [] [] 0
      = [buildFakeSse "heartbeat" (heartbeatDebugMsg badParserTicket [] [] 0)
          badParserTicket]
    ∧ badParserTicket.badSseParser = true
    ∧ List.isPrefixOf "data: ".toList
        (buildFakeSse "heartbeat" (heartbeatDebugMsg badParserTicket [] [] 0)
          badParserTicket).toList = true := by
  refine ⟨rfl, rfl, ?_⟩
  decide

/-- C9 (amended): `badSseParser=true` suppresses the comment lines — the
initial joining-queue comment and the production heartbeat comment — but has
no effect on the diagnostic (non-production) fake-event heartbeat, which is
emitted regardless of the flag. -/
theorem c9_badSseParser_suppresses_comments_only (req : Ticket)
    (queue : List Ticket) (waitTimes : List WaitSample) (now : Int)
    (queueLength : Nat) :
    initStreamingWrites { req with badSseParser := true } queueLength = []
    ∧ heartbeatTick true { req with badSseParser := true } queue waitTimes now = []
    ∧ heartbeatTick false { req with badSseParser := true } queue waitTimes now
      = heartbeatTick false { req with badSseParser := false } queue waitTimes now := by
  exact ⟨rfl, rfl, rfl⟩

/-- C10 (counterexample): the claim says that for a truthy `stream` field the
rewriter raises AND the upstream request is destroyed.  The throw sits before
the try/catch guarding the rewriter pipeline, so the handler's
`proxyReq.destroy` call (the catch branch, outcome `destroyed`) is never
reached for it: the outcome is `raised`, not `destroyed`. -/
theorem c10_counterexample_raised_not_destroyed :
    rewritePalmRequest palmStreamTicket "/v1/chat/completions" none
      = RewriteOutcome.raised "Google PaLM API doesn\x27t support streaming requests"
    ∧ rewritePalmRequest palmStreamTicket "/v1/chat/completions" none
      ≠ RewriteOutcome.destroyed "Google PaLM API doesn\x27t support streaming requests"
    ∧ jsTruthy palmStreamTicket.stream = true := by
  refine ⟨rfl, ?_, rfl⟩
  decide

/-- C10 (amended): for every request whose parsed body has a truthy `stream`
field, `rewritePalmRequest` raises the streaming error before any rewriting
or forwarding happens — the error escapes the handler (it is not routed
through the handler's own `proxyReq.destroy`), and the request is never
forwarded. -/
theorem c10_stream_always_raises (req : Ticket) (path : String)
    (pipelineError : Option String) (h : jsTruthy req.stream = true) :
    rewritePalmRequest req path pipelineError
      = RewriteOutcome.raised "Google PaLM API doesn\x27t support streaming requests" := by
  unfold rewritePalmRequest
  rw [h]
  rfl

/-- C10 (witness): the amended claim at a concrete input: a body whose
`stream` is the truthy string "yes", with a failing pipeline stage. -/
theorem c10_stream_raises_witness :
    rewritePalmRequest palmStreamStrTicket "/v1/chat/completions" (some "stage failure")
      = RewriteOutcome.raised "Google PaLM API doesn\x27t support streaming requests" :=
  c10_stream_always_raises palmStreamStrTicket "/v1/chat/completions"
    (some "stage failure") rfl

end OaiProxy
